import Mathlib

/-
Verification of the claude-code-mcp bridge (TypeScript sources in src/).

The development shallowly embeds the tool invocation lifecycle:
  - the CLI Resolver (findClaudeCli, src/utils.ts lines 23-60),
  - the Process Invoker (spawnAsync, src/utils.ts lines 63-114),
  - the Version Prober (_initializeClaudeCliVersion, src/server.ts lines 113-133),
  - the Tool Request Dispatcher (setupToolHandlers call handler,
    src/server.ts lines 174-273).

Filesystem existence checks, Node path.resolve and the subprocess runtime are
modelled as explicit parameters (a predicate on paths, a resolution function,
and a behaviour record describing the events the child process emits), so the
embedded functions are pure and executable.  JavaScript string operations are
modelled over the character list of a string so that every definition
evaluates by kernel reduction.
-/

namespace ClaudeCodeMCP

/-! ## String helpers mirroring the JavaScript operations used by the source -/

/-- Substring occurrence on character lists: `pat` occurs somewhere in the
list.  Used to model JavaScript `s.includes(pat)`. -/
def listContainsSub (pat : List Char) : List Char → Bool
  | [] => pat.isEmpty
  | c :: t => pat.isPrefixOf (c :: t) || listContainsSub pat t

/-- JavaScript `s.includes(pat)`. -/
def strContains (s pat : String) : Bool :=
  listContainsSub pat.data s.data

/-- JavaScript `s.startsWith(pre)`. -/
def strStartsWith (s pre : String) : Bool :=
  pre.data.isPrefixOf s.data

/-- JavaScript `s.trim()`: strip leading and trailing whitespace. -/
def strTrim (s : String) : String :=
  String.mk (((s.data.dropWhile Char.isWhitespace).reverse.dropWhile Char.isWhitespace).reverse)

/-- Node `path.isAbsolute` on POSIX: the path starts with a slash. -/
def isAbsolute (s : String) : Bool :=
  strStartsWith s "/"

/-! ## CLI Resolver: findClaudeCli (src/utils.ts lines 23-60)

The environment variable CLAUDE_CLI_NAME is an `Option String` (`none` when
unset); JavaScript truthiness makes `some ""` behave like `none`.  The
filesystem is the predicate `fsExists`.  A thrown `Error` is `Except.error`. -/

/-- Error message thrown for a relative-path override (src/utils.ts line 39). -/
def configErrMsg : String :=
  "Invalid CLAUDE_CLI_NAME: Relative paths are not allowed. Use either a simple name or an absolute path"

/-- The well-known local-install path `join(homedir(), ".claude", "local", "claude")`
(src/utils.ts line 46). -/
def localInstallPath (homedir : String) : String :=
  homedir ++ "/.claude/local/claude"

/-- Steps 2-3 of the resolver (src/utils.ts lines 43-59): prefer the
well-known local-install path when it exists, otherwise fall back to the bare
CLI name for PATH lookup (with a non-fatal warning). -/
def fallbackResolve (cliName homedir : String) (fsExists : String → Bool) : Except String String :=
  if fsExists (localInstallPath homedir) then
    Except.ok (localInstallPath homedir)
  else
    Except.ok cliName

/-- findClaudeCli (src/utils.ts lines 23-60).  An override that is an absolute
path is returned directly; an override containing a relative-path prefix or a
path separator throws; otherwise the bare name (override or the default
"claude") goes through the local-install check. -/
def findClaudeCli (env : Option String) (homedir : String) (fsExists : String → Bool) : Except String String :=
  match env with
  | some name =>
      if name = "" then
        fallbackResolve "claude" homedir fsExists
      else if isAbsolute name then
        Except.ok name
      else if strStartsWith name "./" || strStartsWith name "../" || name.data.contains '/' then
        Except.error configErrMsg
      else
        fallbackResolve name homedir fsExists
  | none => fallbackResolve "claude" homedir fsExists

/-! ## Theorems for the CLI Resolver claims -/

/-- C5 counterexample: with an absolute-path override `/opt/tool/bin` and a
filesystem on which every path (in particular the well-known local-install
path `/home/user/.claude/local/claude`) exists, `resolve()` returns the
override, not the well-known path — refuting the claim that the well-known
path is returned regardless of the configured override. -/
theorem localInstall_not_preferred_over_absolute_override :
    (fun _ => true : String → Bool) (localInstallPath "/home/user") = true
    ∧ findClaudeCli (some "/opt/tool/bin") "/home/user" (fun _ => true) = Except.ok "/opt/tool/bin"
    ∧ Except.ok "/opt/tool/bin" ≠ (Except.ok (localInstallPath "/home/user") : Except String String) := by
  refine ⟨rfl, rfl, ?_⟩
  intro h
  exact absurd (Except.ok.inj h) (by decide)

/-- C5 (amended): whenever the well-known local-install path exists, resolve()
returns it, provided the configured override (if any) is a bare name — neither
an absolute path nor a value containing a path separator or relative-path
prefix (an absolute override is returned directly instead, and a relative one
throws). -/
theorem localInstall_wins_for_bare_names (env : Option String) (homedir : String)
    (fsExists : String → Bool)
    (hbare : ∀ n, env = some n →
      strStartsWith n "/" = false ∧ strStartsWith n "./" = false
      ∧ strStartsWith n "../" = false ∧ n.data.contains '/' = false)
    (hex : fsExists (localInstallPath homedir) = true) :
    findClaudeCli env homedir fsExists = Except.ok (localInstallPath homedir) := by
  cases env with
  | none => simp [findClaudeCli, fallbackResolve, hex]
  | some n =>
      obtain ⟨h1, h2, h3, h4⟩ := hbare n rfl
      by_cases hn : n = ""
      · subst hn
        simp [findClaudeCli, fallbackResolve, hex]
      · have h4m : '/' ∉ n.data := by simpa using h4
        simp [findClaudeCli, fallbackResolve, isAbsolute, h1, h2, h3, h4m, hn, hex]

/-- C5 witness: instantiating the amended theorem at a concrete bare-name
override with the local-install path present on disk. -/
theorem localInstall_wins_for_bare_names_witness :
    findClaudeCli (some "tool") "/home/user" (fun _ => true)
      = Except.ok (localInstallPath "/home/user") :=
  localInstall_wins_for_bare_names (some "tool") "/home/user" (fun _ => true)
    (by intro n hn; cases hn; exact ⟨by decide, by decide, by decide, by decide⟩) rfl

/-- C8: every override value that contains a path separator or a
relative-path prefix, and is not an absolute path, makes `resolve()` fail with
the configuration error; the result is moreover independent of the home
directory and of the filesystem predicate, so the failure happens before any
filesystem access. -/
theorem relative_override_rejected (name homedir homedir2 : String)
    (fsExists fsExists2 : String → Bool)
    (habs : strStartsWith name "/" = false)
    (hrel : strStartsWith name "./" = true ∨ strStartsWith name "../" = true
      ∨ name.data.contains '/' = true) :
    findClaudeCli (some name) homedir fsExists = Except.error configErrMsg
    ∧ findClaudeCli (some name) homedir fsExists
      = findClaudeCli (some name) homedir2 fsExists2 := by
  have hn : name ≠ "" := by
    intro h
    subst h
    rcases hrel with h | h | h <;> exact absurd h (by decide)
  have hmain : ∀ (hd : String) (fs : String → Bool),
      findClaudeCli (some name) hd fs = Except.error configErrMsg := by
    intro hd fs
    rcases hrel with h | h | h
    · simp [findClaudeCli, isAbsolute, hn, habs, h]
    · simp [findClaudeCli, isAbsolute, hn, habs, h]
    · have hm : '/' ∈ name.data := by simpa using h
      simp [findClaudeCli, isAbsolute, hn, habs, hm]
  exact ⟨hmain homedir fsExists, (hmain homedir fsExists).trans (hmain homedir2 fsExists2).symm⟩

/-- C8 witness: the concrete relative override "./claude" is rejected with the
configuration error, independently of the filesystem. -/
theorem relative_override_rejected_witness :
    findClaudeCli (some "./claude") "/home/user" (fun _ => true) = Except.error configErrMsg
    ∧ findClaudeCli (some "./claude") "/home/user" (fun _ => true)
      = findClaudeCli (some "./claude") "/other" (fun _ => false) :=
  relative_override_rejected "./claude" "/home/user" "/other" (fun _ => true) (fun _ => false)
    (by decide) (Or.inl (by decide))

/-! ## Process Invoker: spawnAsync (src/utils.ts lines 63-114)

The subprocess runtime is modelled by a `SpawnBehavior`: the stdout/stderr
chunks delivered to the data handlers, followed by the single terminal event
the child emits — either an `error` event (with the errno-style code the
error object carries, if any) or a `close` event (with the exit code, `none`
standing for JavaScript `null`, as when the child is killed by a signal). -/

/-- Terminal event of the child process observed by spawnAsync. -/
inductive ProcEvent where
  | errorEvent (errCode : Option String) (message : String)
  | closeEvent (exitCode : Option Int)
deriving DecidableEq

/-- The observable behaviour of one spawned child process. -/
structure SpawnBehavior where
  stdoutChunks : List String
  stderrChunks : List String
  event : ProcEvent
deriving DecidableEq

/-- The invocation record passed to Node `spawn` (src/utils.ts lines 66-71):
command, literal argument vector, `shell: false`, timeout and cwd options. -/
structure SpawnCall where
  command : String
  args : List String
  shell : Bool
  timeout : Option Int
  cwd : Option String
deriving DecidableEq

/-- The `spawn(command, args, { shell: false, timeout, cwd, ... })` call made
by spawnAsync (src/utils.ts lines 66-71). -/
def spawnAsyncCall (command : String) (args : List String) (timeout : Option Int)
    (cwd : Option String) : SpawnCall :=
  { command := command, args := args, shell := false, timeout := timeout, cwd := cwd }

/-- The resolution value `{ stdout, stderr, exitCode }` (src/utils.ts line 102). -/
structure SpawnSuccess where
  stdout : String
  stderr : String
  exitCode : Int
deriving DecidableEq

/-- A rejection of the spawnAsync promise: the Error object with the extra
fields the source may attach (`stdout`, `stderr`, `exitCode` on the non-zero
exit path; `code` and `signal` are whatever the rejected Error object itself
carries, used later by the dispatcher's timeout classification). -/
structure SpawnFailure where
  message : String
  stdout : Option String
  stderr : Option String
  exitCode : Option Int
  code : Option String
  signal : Option String
deriving DecidableEq

/-- JavaScript template rendering of `number | null`. -/
def intOptToString : Option Int → String
  | none => "null"
  | some n => toString n

/-- spawnAsync (src/utils.ts lines 63-114), as a function from the child
behaviour to the promise outcome.  stdout/stderr accumulate the chunks; an
ENOENT error event rejects with a fresh "Command not found" error (no fields
attached); any other error event rejects with the original error (no
stdout/stderr attached); close with code 0 resolves; close with any other
code rejects with a "Command failed" message carrying trimmed stdout/stderr
and the exit code. -/
def spawnAsyncResult (command : String) (b : SpawnBehavior) : Except SpawnFailure SpawnSuccess :=
  let stdout := String.join b.stdoutChunks
  let stderr := String.join b.stderrChunks
  match b.event with
  | ProcEvent.errorEvent errCode msg =>
      if errCode = some "ENOENT" then
        Except.error { message := "Command not found: " ++ command,
                       stdout := none, stderr := none, exitCode := none,
                       code := none, signal := none }
      else
        Except.error { message := msg, stdout := none, stderr := none,
                       exitCode := none, code := errCode, signal := none }
  | ProcEvent.closeEvent exitCode =>
      if exitCode = some 0 then
        Except.ok { stdout := stdout, stderr := stderr, exitCode := 0 }
      else
        Except.error { message := "Command failed: " ++ command ++ " . Exit code: "
                         ++ intOptToString exitCode ++ ". Stderr: " ++ strTrim stderr,
                       stdout := some (strTrim stdout), stderr := some (strTrim stderr),
                       exitCode := exitCode, code := none, signal := none }

/-! ## Tool call arguments as JavaScript values -/

/-- A JavaScript value, as far as the argument validation of the dispatcher
needs to distinguish them. -/
inductive JsVal where
  | str (s : String)
  | num (n : Int)
  | boolean (b : Bool)
  | nullV
  | undef
  | obj (fields : List (String × JsVal))

/-- Property lookup `v[k]`; `none` when the receiver is not an object or the
key is absent (JavaScript `undefined`). -/
def getField : JsVal → String → Option JsVal
  | JsVal.obj fields, k => fields.lookup k
  | _, _ => none

/-- The prompt validation of the call handler (src/server.ts lines 202-214):
the arguments must be a truthy object with a string-typed `prompt` property.
`none` corresponds to throwing InvalidParams. -/
def extractPrompt (toolArguments : JsVal) : Option String :=
  match toolArguments with
  | JsVal.obj fields =>
      match fields.lookup "prompt" with
      | some (JsVal.str s) => some s
      | _ => none
  | _ => none

/-- Working-directory determination (src/server.ts lines 216-233): a truthy
string `workFolder` is resolved (Node path.resolve, modelled by `presolve`)
and used when it exists on disk; in every other case the home directory is
used.  `none`, a non-string value and the empty string all fall through to
the home directory. -/
def effectiveCwd (toolArguments : JsVal) (homedir : String)
    (presolve : String → String) (fsExists : String → Bool) : String :=
  match getField toolArguments "workFolder" with
  | some (JsVal.str s) =>
      if s = "" then homedir
      else
        if fsExists (presolve s) then presolve s else homedir
  | _ => homedir

/-! ## Tool Request Dispatcher (src/server.ts lines 174-273) -/

/-- The MCP error codes the handler can throw. -/
inductive ErrorCode where
  | MethodNotFound
  | InvalidParams
  | InternalError
deriving DecidableEq

/-- InvalidParams message for a missing or mistyped prompt (src/server.ts line 213). -/
def promptErrMsg : String :=
  "Missing or invalid required parameter: prompt (must be an object with a string \"prompt\" property) for claude_code tool"

/-- The fixed argument vector (src/server.ts line 238). -/
def claudeProcessArgs (prompt : String) : List String :=
  ["--dangerously-skip-permissions", "-p", prompt]

/-- An execution request handed to the Process Invoker. -/
structure ExecutionRequest where
  command : String
  args : List String
  cwd : String
  timeoutMs : Int
deriving DecidableEq

/-- Outcome of the validation phase of the call handler: either an McpError
thrown before any subprocess work, or an execution request. -/
inductive DispatchResult where
  | reject (errCode : ErrorCode) (message : String)
  | execute (req : ExecutionRequest)
deriving DecidableEq

/-- The validation and context-resolution phase of the call handler
(src/server.ts lines 191-245): tool-name check, prompt validation,
working-directory determination, and construction of the spawn request. -/
def dispatch (claudeCliPath : String) (timeoutMs : Int) (homedir : String)
    (presolve : String → String) (fsExists : String → Bool)
    (toolName : String) (toolArguments : JsVal) : DispatchResult :=
  if toolName ≠ "claude_code" then
    DispatchResult.reject ErrorCode.MethodNotFound ("Tool " ++ toolName ++ " not found")
  else
    match extractPrompt toolArguments with
    | none => DispatchResult.reject ErrorCode.InvalidParams promptErrMsg
    | some prompt =>
        DispatchResult.execute
          { command := claudeCliPath, args := claudeProcessArgs prompt,
            cwd := effectiveCwd toolArguments homedir presolve fsExists,
            timeoutMs := timeoutMs }

/-- `error.message || "Unknown error"` (src/server.ts line 257). -/
def baseMessage (e : SpawnFailure) : String :=
  if e.message = "" then "Unknown error" else e.message

/-- Appending the stderr/stdout fields of the error, when present and truthy
(src/server.ts lines 259-264). -/
def appendOutputs (base : String) (e : SpawnFailure) : String :=
  let m1 := match e.stderr with
    | some s => if s = "" then base else base ++ "\nStderr: " ++ s
    | none => base
  match e.stdout with
  | some s => if s = "" then m1 else m1 ++ "\nStdout: " ++ s
  | none => m1

/-- The timeout classification of the catch block (src/server.ts line 266):
SIGTERM signal, an ETIMEDOUT substring in a truthy message, or an ETIMEDOUT
error code. -/
def isTimeoutError (e : SpawnFailure) : Bool :=
  e.signal == some "SIGTERM" || strContains e.message "ETIMEDOUT" || e.code == some "ETIMEDOUT"

/-- The catch block of the call handler (src/server.ts lines 255-272):
classify the failure and build the McpError message. -/
def mapFailure (timeoutMs : Int) (e : SpawnFailure) : ErrorCode × String :=
  let errorMessage := appendOutputs (baseMessage e) e
  if isTimeoutError e then
    (ErrorCode.InternalError,
      "Claude CLI command timed out after " ++ toString (timeoutMs / 1000) ++ "s. Details: " ++ errorMessage)
  else
    (ErrorCode.InternalError, "Claude CLI execution failed: " ++ errorMessage)

/-- One item of the MCP result content array. -/
structure ContentBlock where
  type : String
  text : String
deriving DecidableEq

/-- The protocol-level outcome of one tool call. -/
inductive CallOutcome where
  | success (content : List ContentBlock)
  | mcpError (errCode : ErrorCode) (message : String)
deriving DecidableEq

/-- The whole call handler (src/server.ts lines 191-273): validation, then the
spawnAsync invocation on the given child behaviour, then result/error
translation.  The second component records the spawn call that was made, or
`none` when the call was rejected before spawning. -/
def handleCall (claudeCliPath : String) (timeoutMs : Int) (homedir : String)
    (presolve : String → String) (fsExists : String → Bool)
    (toolName : String) (toolArguments : JsVal) (b : SpawnBehavior) :
    CallOutcome × Option SpawnCall :=
  match dispatch claudeCliPath timeoutMs homedir presolve fsExists toolName toolArguments with
  | DispatchResult.reject c m => (CallOutcome.mcpError c m, none)
  | DispatchResult.execute req =>
      let call := spawnAsyncCall req.command req.args (some req.timeoutMs) (some req.cwd)
      match spawnAsyncResult req.command b with
      | Except.ok r => (CallOutcome.success [{ type := "text", text := r.stdout }], some call)
      | Except.error e =>
          let cm := mapFailure timeoutMs e
          (CallOutcome.mcpError cm.1 cm.2, some call)

/-! ## Execution timeout configuration (src/server.ts lines 174-189) -/

/-- JavaScript `parseInt(s, 10)`: skip leading whitespace, optional sign,
then the longest prefix of decimal digits; `none` models NaN. -/
def jsParseInt10 (s : String) : Option Int :=
  let cs := s.data.dropWhile Char.isWhitespace
  let sgn : Int := match cs with
    | '-' :: _ => -1
    | _ => 1
  let cs2 : List Char := match cs with
    | '-' :: rest => rest
    | '+' :: rest => rest
    | _ => cs
  let ds := cs2.takeWhile Char.isDigit
  if ds.isEmpty then none
  else some (sgn * (Int.ofNat (ds.foldl (fun acc c => acc * 10 + (c.toNat - 48)) 0)))

/-- The parsed CLAUDE_CLI_TIMEOUT_SECONDS value (`none` for unset or NaN). -/
def envTimeoutParsed (env : Option String) : Option Int :=
  match env with
  | some v => jsParseInt10 v
  | none => none

/-- The effective per-call timeout in seconds (src/server.ts lines 174-188):
the parsed environment value when it is a strictly positive integer, and the
default 3600 otherwise. -/
def executionTimeoutSeconds (env : Option String) : Int :=
  match env with
  | some v =>
      if v = "" then 3600
      else
        match jsParseInt10 v with
        | some n => if 0 < n then n else 3600
        | none => 3600
  | none => 3600

/-- `executionTimeoutMs = executionTimeoutSeconds * 1000` (src/server.ts line 189). -/
def executionTimeoutMs (env : Option String) : Int :=
  executionTimeoutSeconds env * 1000

/-! ## Version Prober (src/server.ts lines 113-133 and 140-148) -/

/-- Initial value of claudeCliVersionString (src/server.ts line 35). -/
def unprobedSentinel : String := "unknown"

/-- Sentinel cached when no CLI path was resolved (src/server.ts line 116). -/
def cliNotFoundSentinel : String := "Claude CLI not found"

/-- Sentinel cached when the version probe failed (src/server.ts line 128). -/
def versionCheckFailedSentinel : String := "Claude CLI not found or version check failed"

/-- Outcome of running `claudeCliPath --version`. -/
inductive ProbeOutcome where
  | success (stdout : String)
  | failure
deriving DecidableEq

/-- _initializeClaudeCliVersion (src/server.ts lines 113-133): the version
string cached by one probe invocation, given the CLI path and the probe
outcome.  An empty path caches the not-found sentinel without probing; a
successful probe caches the trimmed stdout (or "unknown" when empty); a
failed probe caches the version-check-failure sentinel. -/
def initializeClaudeCliVersion (claudeCliPath : String) (outcome : ProbeOutcome) : String :=
  if claudeCliPath = "" then cliNotFoundSentinel
  else
    match outcome with
    | ProbeOutcome.success stdout =>
        if strTrim stdout = "" then "unknown" else strTrim stdout
    | ProbeOutcome.failure => versionCheckFailedSentinel

/-- The re-probe condition of the ListTools handler (src/server.ts line 142). -/
def listToolsReprobes (versionString : String) : Bool :=
  versionString == "unknown" || versionString == "Claude CLI not found or version check failed"

/-- The version-related state of the server, with a count of how many times
the probe has been invoked. -/
structure ServerState where
  claudeCliPath : String
  versionString : String
  probeCount : Nat
deriving DecidableEq

/-- Construction (src/server.ts lines 41-59): resolve the CLI path (an
exception degrades it to the empty string), leave the version string at its
initial "unknown", and kick off the version probe once without awaiting it. -/
def constructServer (resolved : Except String String) : ServerState :=
  match resolved with
  | Except.ok p => { claudeCliPath := p, versionString := unprobedSentinel, probeCount := 1 }
  | Except.error _ => { claudeCliPath := "", versionString := unprobedSentinel, probeCount := 1 }

/-- Completion of an in-flight probe: the cached version string is updated. -/
def probeComplete (s : ServerState) (outcome : ProbeOutcome) : ServerState :=
  { s with versionString := initializeClaudeCliVersion s.claudeCliPath outcome }

/-- The ListTools handler's version maintenance (src/server.ts lines 140-148):
re-invoke the probe (and await it) exactly when the re-probe condition holds
on the cached string. -/
def listToolsStep (s : ServerState) (outcome : ProbeOutcome) : ServerState :=
  if listToolsReprobes s.versionString then
    probeComplete { s with probeCount := s.probeCount + 1 } outcome
  else s

/-! ## Shared lemmas -/

/-- The spawn-call component of the handler is determined by the dispatch
phase alone: rejected calls spawn nothing, executed calls spawn exactly the
request handed to the Process Invoker. -/
theorem handleCall_snd_eq (cliPath : String) (timeoutMs : Int) (homedir : String)
    (presolve : String → String) (fsExists : String → Bool)
    (toolName : String) (ta : JsVal) (b : SpawnBehavior) :
    (handleCall cliPath timeoutMs homedir presolve fsExists toolName ta b).2
      = (match dispatch cliPath timeoutMs homedir presolve fsExists toolName ta with
         | DispatchResult.reject _ _ => none
         | DispatchResult.execute req =>
             some (spawnAsyncCall req.command req.args (some req.timeoutMs) (some req.cwd))) := by
  unfold handleCall
  cases hd : dispatch cliPath timeoutMs homedir presolve fsExists toolName ta with
  | reject c m => rfl
  | execute req =>
      cases hs : spawnAsyncResult req.command b with
      | ok r => simp [hs]
      | error e => simp [hs]

/-! ## Theorems for the Process Invoker and Dispatcher claims -/

/-- C1: for every tool call whose subprocess exits with status 0, spawnAsync
resolves with the accumulated stdout, the accumulated stderr and exit code 0,
and the handler returns a single text content block whose text is exactly the
accumulated stdout, untrimmed; the stderr chunks (arbitrary here, possibly
non-empty) do not appear in the result payload. -/
theorem exit_zero_returns_stdout (cliPath : String) (timeoutMs : Int) (homedir : String)
    (presolve : String → String) (fsExists : String → Bool) (ta : JsVal) (p : String)
    (b : SpawnBehavior)
    (hp : extractPrompt ta = some p) (hev : b.event = ProcEvent.closeEvent (some 0)) :
    spawnAsyncResult cliPath b
      = Except.ok { stdout := String.join b.stdoutChunks,
                    stderr := String.join b.stderrChunks, exitCode := 0 }
    ∧ (handleCall cliPath timeoutMs homedir presolve fsExists "claude_code" ta b).1
      = CallOutcome.success [{ type := "text", text := String.join b.stdoutChunks }] := by
  have h1 : spawnAsyncResult cliPath b
      = Except.ok { stdout := String.join b.stdoutChunks,
                    stderr := String.join b.stderrChunks, exitCode := 0 } := by
    simp [spawnAsyncResult, hev]
  refine ⟨h1, ?_⟩
  simp [handleCall, dispatch, hp, h1]

/-- C1 witness: a concrete call with prompt "hello", stdout "ok" and a noisy
stderr exits 0 and yields exactly the text "ok". -/
theorem exit_zero_returns_stdout_witness :
    spawnAsyncResult "claude"
        { stdoutChunks := ["ok"], stderrChunks := ["noise"],
          event := ProcEvent.closeEvent (some 0) }
      = Except.ok { stdout := String.join ["ok"], stderr := String.join ["noise"], exitCode := 0 }
    ∧ (handleCall "claude" 3600000 "/home/user" id (fun _ => false) "claude_code"
        (JsVal.obj [("prompt", JsVal.str "hello")])
        { stdoutChunks := ["ok"], stderrChunks := ["noise"],
          event := ProcEvent.closeEvent (some 0) }).1
      = CallOutcome.success [{ type := "text", text := String.join ["ok"] }] :=
  exit_zero_returns_stdout "claude" 3600000 "/home/user" id (fun _ => false)
    (JsVal.obj [("prompt", JsVal.str "hello")]) "hello"
    { stdoutChunks := ["ok"], stderrChunks := ["noise"],
      event := ProcEvent.closeEvent (some 0) } rfl rfl

/-- C2 (code bug): with the timeout configured to 2000 ms, a subprocess that
captured the chunks "partial stdout"/"partial stderr" and then times out —
surfaced, as in the repository's own tests and in the dispatcher's
classification (src/server.ts line 266), as an error event carrying the
ETIMEDOUT code — is rejected by spawnAsync WITHOUT the captured stdout/stderr
(both fields are none, the error-event branch at src/utils.ts lines 82-95
discards the accumulated chunks), and the surfaced message names the
configured timeout (2s) but contains none of the captured output.  The claim
(and the spec, and the repository test expecting accumulated stderr inside an
error-event rejection) requires the captured output to be carried. -/
theorem timeout_surfaced_without_captured_output :
    spawnAsyncResult "claude"
        { stdoutChunks := ["partial stdout"], stderrChunks := ["partial stderr"],
          event := ProcEvent.errorEvent (some "ETIMEDOUT") "spawn ETIMEDOUT" }
      = Except.error { message := "spawn ETIMEDOUT", stdout := none, stderr := none,
                       exitCode := none, code := some "ETIMEDOUT", signal := none }
    ∧ (handleCall "claude" 2000 "/home/user" id (fun _ => false) "claude_code"
        (JsVal.obj [("prompt", JsVal.str "hi")])
        { stdoutChunks := ["partial stdout"], stderrChunks := ["partial stderr"],
          event := ProcEvent.errorEvent (some "ETIMEDOUT") "spawn ETIMEDOUT" }).1
      = CallOutcome.mcpError ErrorCode.InternalError
          "Claude CLI command timed out after 2s. Details: spawn ETIMEDOUT"
    ∧ strContains "Claude CLI command timed out after 2s. Details: spawn ETIMEDOUT" "partial"
      = false :=
  ⟨rfl, rfl, by decide⟩

/-- C3: a subprocess is spawned exactly when the tool name is claude_code and
the arguments carry a string-typed prompt; any other tool name is rejected
with MethodNotFound and no spawn; a missing or non-string prompt is rejected
with InvalidParams and no spawn. -/
theorem invalid_calls_never_spawn (cliPath : String) (timeoutMs : Int) (homedir : String)
    (presolve : String → String) (fsExists : String → Bool)
    (toolName : String) (ta : JsVal) (b : SpawnBehavior) :
    ((handleCall cliPath timeoutMs homedir presolve fsExists toolName ta b).2 ≠ none
      ↔ (toolName = "claude_code" ∧ extractPrompt ta ≠ none))
    ∧ (toolName ≠ "claude_code" →
        handleCall cliPath timeoutMs homedir presolve fsExists toolName ta b
          = (CallOutcome.mcpError ErrorCode.MethodNotFound ("Tool " ++ toolName ++ " not found"),
             none))
    ∧ (toolName = "claude_code" → extractPrompt ta = none →
        handleCall cliPath timeoutMs homedir presolve fsExists toolName ta b
          = (CallOutcome.mcpError ErrorCode.InvalidParams promptErrMsg, none)) := by
  by_cases ht : toolName = "claude_code"
  · subst ht
    cases hp : extractPrompt ta with
    | none =>
        refine ⟨?_, fun h => absurd rfl h, fun _ _ => ?_⟩
        · rw [handleCall_snd_eq]
          simp [dispatch, hp]
        · simp [handleCall, dispatch, hp]
    | some p =>
        refine ⟨?_, fun h => absurd rfl h, fun _ h => Option.noConfusion h⟩
        rw [handleCall_snd_eq]
        simp [dispatch, hp]
  · refine ⟨?_, fun _ => ?_, fun h => absurd h ht⟩
    · rw [handleCall_snd_eq]
      simp [dispatch, ht]
    · simp [handleCall, dispatch, ht]

/-- C3 witness: a call with the unknown tool name is rejected with
MethodNotFound and spawns nothing; a claude_code call with an empty arguments
object is rejected with InvalidParams and spawns nothing. -/
theorem invalid_calls_never_spawn_witness :
    handleCall "claude" 3600000 "/home/user" id (fun _ => false) "unknown_tool"
        (JsVal.obj [])
        { stdoutChunks := [], stderrChunks := [], event := ProcEvent.closeEvent (some 0) }
      = (CallOutcome.mcpError ErrorCode.MethodNotFound "Tool unknown_tool not found", none)
    ∧ handleCall "claude" 3600000 "/home/user" id (fun _ => false) "claude_code"
        (JsVal.obj [])
        { stdoutChunks := [], stderrChunks := [], event := ProcEvent.closeEvent (some 0) }
      = (CallOutcome.mcpError ErrorCode.InvalidParams promptErrMsg, none) :=
  ⟨(invalid_calls_never_spawn "claude" 3600000 "/home/user" id (fun _ => false) "unknown_tool"
      (JsVal.obj [])
      { stdoutChunks := [], stderrChunks := [], event := ProcEvent.closeEvent (some 0) }).2.1
      (by decide),
   (invalid_calls_never_spawn "claude" 3600000 "/home/user" id (fun _ => false) "claude_code"
      (JsVal.obj [])
      { stdoutChunks := [], stderrChunks := [], event := ProcEvent.closeEvent (some 0) }).2.2
      rfl rfl⟩

/-- C4 (code bug): a generic spawn failure after non-empty captured output is
rejected with the ORIGINAL error object: no stdout, no stderr attached
(src/utils.ts line 92), and likewise the ENOENT rejection is a fresh error
with no captured output (src/utils.ts line 89); only the non-zero-exit
rejection carries the (trimmed) captured stdout/stderr.  The claim — and the
repository test expecting the accumulated stderr to surface in an error-event
rejection — requires every failing execution to carry the partial output. -/
theorem spawn_error_rejection_drops_captured_output :
    spawnAsyncResult "test"
        { stdoutChunks := ["some stdout"], stderrChunks := ["error line 1\n", "error line 2\n"],
          event := ProcEvent.errorEvent none "Command failed" }
      = Except.error { message := "Command failed", stdout := none, stderr := none,
                       exitCode := none, code := none, signal := none }
    ∧ spawnAsyncResult "nonexistent-command"
        { stdoutChunks := [], stderrChunks := ["partial stderr"],
          event := ProcEvent.errorEvent (some "ENOENT") "spawn ENOENT" }
      = Except.error { message := "Command not found: nonexistent-command", stdout := none,
                       stderr := none, exitCode := none, code := none, signal := none }
    ∧ spawnAsyncResult "test"
        { stdoutChunks := ["out"], stderrChunks := ["err"],
          event := ProcEvent.closeEvent (some 1) }
      = Except.error { message := "Command failed: test . Exit code: 1. Stderr: err",
                       stdout := some "out", stderr := some "err", exitCode := some 1,
                       code := none, signal := none } :=
  ⟨rfl, rfl, rfl⟩

/-- C6: every call that reaches execution hands the Process Invoker exactly
the argument vector [skip-permissions flag, -p flag, prompt] with the prompt
verbatim as one element, and the underlying spawn call passes that vector
literally with shell disabled. -/
theorem exec_argv_and_no_shell (cliPath : String) (timeoutMs : Int) (homedir : String)
    (presolve : String → String) (fsExists : String → Bool) (ta : JsVal) (p : String)
    (b : SpawnBehavior) (hp : extractPrompt ta = some p) :
    dispatch cliPath timeoutMs homedir presolve fsExists "claude_code" ta
      = DispatchResult.execute
          { command := cliPath, args := ["--dangerously-skip-permissions", "-p", p],
            cwd := effectiveCwd ta homedir presolve fsExists, timeoutMs := timeoutMs }
    ∧ (handleCall cliPath timeoutMs homedir presolve fsExists "claude_code" ta b).2
      = some { command := cliPath, args := ["--dangerously-skip-permissions", "-p", p],
               shell := false, timeout := some timeoutMs,
               cwd := some (effectiveCwd ta homedir presolve fsExists) } := by
  have hd : dispatch cliPath timeoutMs homedir presolve fsExists "claude_code" ta
      = DispatchResult.execute
          { command := cliPath, args := ["--dangerously-skip-permissions", "-p", p],
            cwd := effectiveCwd ta homedir presolve fsExists, timeoutMs := timeoutMs } := by
    simp [dispatch, hp, claudeProcessArgs]
  refine ⟨hd, ?_⟩
  rw [handleCall_snd_eq, hd]
  rfl

/-- C6 witness: a concrete call with prompt "hello" spawns with exactly the
vector [--dangerously-skip-permissions, -p, hello] and shell disabled. -/
theorem exec_argv_and_no_shell_witness :
    dispatch "claude" 3600000 "/home/user" id (fun _ => false) "claude_code"
        (JsVal.obj [("prompt", JsVal.str "hello")])
      = DispatchResult.execute
          { command := "claude", args := ["--dangerously-skip-permissions", "-p", "hello"],
            cwd := effectiveCwd (JsVal.obj [("prompt", JsVal.str "hello")]) "/home/user" id
              (fun _ => false),
            timeoutMs := 3600000 }
    ∧ (handleCall "claude" 3600000 "/home/user" id (fun _ => false) "claude_code"
        (JsVal.obj [("prompt", JsVal.str "hello")])
        { stdoutChunks := ["ok"], stderrChunks := [], event := ProcEvent.closeEvent (some 0) }).2
      = some { command := "claude", args := ["--dangerously-skip-permissions", "-p", "hello"],
               shell := false, timeout := some 3600000,
               cwd := some (effectiveCwd (JsVal.obj [("prompt", JsVal.str "hello")]) "/home/user"
                 id (fun _ => false)) } :=
  exec_argv_and_no_shell "claude" 3600000 "/home/user" id (fun _ => false)
    (JsVal.obj [("prompt", JsVal.str "hello")]) "hello"
    { stdoutChunks := ["ok"], stderrChunks := [], event := ProcEvent.closeEvent (some 0) } rfl

/-- C7: the effective per-call timeout in seconds is the environment value
when it parses (JavaScript parseInt semantics) to a strictly positive
integer, and 3600 otherwise (unset, unparsable, zero or negative); it is
always strictly positive, and the execution request handed to the Process
Invoker carries exactly this timeout in milliseconds, also strictly
positive. -/
theorem timeout_env_config (env : Option String) (cliPath homedir : String)
    (presolve : String → String) (fsExists : String → Bool) (ta : JsVal) (p : String)
    (hp : extractPrompt ta = some p) :
    ((∃ n : Int, envTimeoutParsed env = some n ∧ 0 < n ∧ executionTimeoutSeconds env = n)
      ∨ ((∀ n : Int, envTimeoutParsed env = some n → n ≤ 0)
          ∧ executionTimeoutSeconds env = 3600))
    ∧ 0 < executionTimeoutSeconds env
    ∧ 0 < executionTimeoutMs env
    ∧ dispatch cliPath (executionTimeoutMs env) homedir presolve fsExists "claude_code" ta
      = DispatchResult.execute
          { command := cliPath, args := claudeProcessArgs p,
            cwd := effectiveCwd ta homedir presolve fsExists,
            timeoutMs := executionTimeoutMs env } := by
  have hchar : (∃ n : Int, envTimeoutParsed env = some n ∧ 0 < n
        ∧ executionTimeoutSeconds env = n)
      ∨ ((∀ n : Int, envTimeoutParsed env = some n → n ≤ 0)
          ∧ executionTimeoutSeconds env = 3600) := by
    cases env with
    | none => exact Or.inr ⟨fun n h => (nomatch h), rfl⟩
    | some v =>
        by_cases hv : v = ""
        · subst hv
          exact Or.inr ⟨fun n h => (nomatch h), rfl⟩
        · cases hj : jsParseInt10 v with
          | none =>
              refine Or.inr ⟨fun n h => ?_, by simp [executionTimeoutSeconds, hv, hj]⟩
              rw [envTimeoutParsed, hj] at h
              cases h
          | some n =>
              by_cases hn : 0 < n
              · refine Or.inl ⟨n, ?_, hn, by simp [executionTimeoutSeconds, hv, hj, hn]⟩
                rw [envTimeoutParsed, hj]
              · refine Or.inr ⟨fun m h => ?_, by simp [executionTimeoutSeconds, hv, hj, hn]⟩
                rw [envTimeoutParsed, hj] at h
                cases h
                exact le_of_not_lt hn
  have hsec : 0 < executionTimeoutSeconds env := by
    rcases hchar with ⟨n, _, hn, he⟩ | ⟨_, he⟩
    · rw [he]; exact hn
    · rw [he]; norm_num
  have hms : 0 < executionTimeoutMs env := by
    have : (0 : Int) < 1000 := by norm_num
    exact mul_pos hsec this
  refine ⟨hchar, hsec, hms, ?_⟩
  simp [dispatch, hp]

/-- C7 witness: with CLAUDE_CLI_TIMEOUT_SECONDS set to "120" and a valid
prompt, the parsed value 120 is used and the execution request carries
120000 ms. -/
theorem timeout_env_config_witness :
    ((∃ n : Int, envTimeoutParsed (some "120") = some n ∧ 0 < n
        ∧ executionTimeoutSeconds (some "120") = n)
      ∨ ((∀ n : Int, envTimeoutParsed (some "120") = some n → n ≤ 0)
          ∧ executionTimeoutSeconds (some "120") = 3600))
    ∧ 0 < executionTimeoutSeconds (some "120")
    ∧ 0 < executionTimeoutMs (some "120")
    ∧ dispatch "claude" (executionTimeoutMs (some "120")) "/home/user" id (fun _ => false)
        "claude_code" (JsVal.obj [("prompt", JsVal.str "hi")])
      = DispatchResult.execute
          { command := "claude", args := claudeProcessArgs "hi",
            cwd := effectiveCwd (JsVal.obj [("prompt", JsVal.str "hi")]) "/home/user" id
              (fun _ => false),
            timeoutMs := executionTimeoutMs (some "120") } :=
  timeout_env_config (some "120") "claude" "/home/user" id (fun _ => false)
    (JsVal.obj [("prompt", JsVal.str "hi")]) "hi" rfl

/-- C9 counterexample: the sentinel "Claude CLI not found" is cached by the
version-probe routine itself (for an unresolved CLI path) and is a failure
state distinct from the unprobed "unknown", yet a tool-listing request
observing it does NOT re-invoke the probe — refuting the claim that the probe
is re-invoked exactly on empty-or-failure states and that every cached
failure state is retried. -/
theorem version_reprobe_counterexample :
    initializeClaudeCliVersion "" ProbeOutcome.failure = cliNotFoundSentinel
    ∧ cliNotFoundSentinel ≠ unprobedSentinel
    ∧ listToolsReprobes cliNotFoundSentinel = false
    ∧ listToolsStep
        { claudeCliPath := "", versionString := cliNotFoundSentinel, probeCount := 1 }
        ProbeOutcome.failure
      = { claudeCliPath := "", versionString := cliNotFoundSentinel, probeCount := 1 } := by
  refine ⟨rfl, by decide, by decide, ?_⟩
  simp [listToolsStep, listToolsReprobes, cliNotFoundSentinel]

/-- C9 (amended): the version probe is invoked once eagerly at construction
without being awaited (the cached string is still the unprobed sentinel right
after construction); a tool-listing request re-invokes it exactly when the
cached string is "unknown" or the version-check-failure sentinel — so the
version-check-failure sentinel is retried, while the not-found sentinel
cached for an unresolved CLI path is not. -/
theorem version_probe_policy (r : Except String String) (s : ServerState) (o : ProbeOutcome) :
    (constructServer r).probeCount = 1
    ∧ (constructServer r).versionString = unprobedSentinel
    ∧ (listToolsStep s o).probeCount
      = (if listToolsReprobes s.versionString then s.probeCount + 1 else s.probeCount)
    ∧ (listToolsReprobes s.versionString = true
        ↔ (s.versionString = unprobedSentinel ∨ s.versionString = versionCheckFailedSentinel))
    ∧ listToolsReprobes versionCheckFailedSentinel = true
    ∧ (listToolsStep
        { claudeCliPath := s.claudeCliPath, versionString := versionCheckFailedSentinel,
          probeCount := s.probeCount } o).probeCount = s.probeCount + 1 := by
  refine ⟨?_, ?_, ?_, ?_, by decide, ?_⟩
  · cases r <;> rfl
  · cases r <;> rfl
  · by_cases h : listToolsReprobes s.versionString
    · simp [listToolsStep, probeComplete, h]
    · simp [listToolsStep, probeComplete, h]
  · simp [listToolsReprobes, unprobedSentinel, versionCheckFailedSentinel]
  · simp [listToolsStep, probeComplete, listToolsReprobes, versionCheckFailedSentinel]

/-- C10: a call with a valid prompt whose workFolder is absent, the empty
string, or not a string proceeds with the home directory as working
directory; the filesystem existence check does not run in these cases (the
resolved directory is independent of the filesystem predicate). -/
theorem workfolder_fallback_to_home (ta : JsVal) (cliPath homedir p : String) (timeoutMs : Int)
    (presolve : String → String) (fsExists fsExists2 : String → Bool)
    (hp : extractPrompt ta = some p)
    (hwf : ∀ s, getField ta "workFolder" = some (JsVal.str s) → s = "") :
    effectiveCwd ta homedir presolve fsExists = homedir
    ∧ effectiveCwd ta homedir presolve fsExists = effectiveCwd ta homedir presolve fsExists2
    ∧ dispatch cliPath timeoutMs homedir presolve fsExists "claude_code" ta
      = DispatchResult.execute
          { command := cliPath, args := claudeProcessArgs p,
            cwd := homedir, timeoutMs := timeoutMs } := by
  have hcwd : ∀ fs : String → Bool, effectiveCwd ta homedir presolve fs = homedir := by
    intro fs
    rcases hgf : getField ta "workFolder" with _ | v
    · simp [effectiveCwd, hgf]
    · rcases v with s | n | bb | _ | _ | fields
      · have hs := hwf s hgf
        subst hs
        simp [effectiveCwd, hgf]
      all_goals simp [effectiveCwd, hgf]
  refine ⟨hcwd fsExists, (hcwd fsExists).trans (hcwd fsExists2).symm, ?_⟩
  simp [dispatch, hp, hcwd fsExists]

/-- C10 witness: a concrete call with prompt "hi" and no workFolder runs in
the home directory, for any filesystem. -/
theorem workfolder_fallback_to_home_witness :
    effectiveCwd (JsVal.obj [("prompt", JsVal.str "hi")]) "/home/user" id (fun _ => true)
      = "/home/user"
    ∧ effectiveCwd (JsVal.obj [("prompt", JsVal.str "hi")]) "/home/user" id (fun _ => true)
      = effectiveCwd (JsVal.obj [("prompt", JsVal.str "hi")]) "/home/user" id (fun _ => false)
    ∧ dispatch "claude" 3600000 "/home/user" id (fun _ => true) "claude_code"
        (JsVal.obj [("prompt", JsVal.str "hi")])
      = DispatchResult.execute
          { command := "claude", args := claudeProcessArgs "hi",
            cwd := "/home/user", timeoutMs := 3600000 } :=
  workfolder_fallback_to_home (JsVal.obj [("prompt", JsVal.str "hi")]) "claude" "/home/user"
    "hi" 3600000 id (fun _ => true) (fun _ => false) rfl (fun _ h => nomatch h)

end ClaudeCodeMCP
